import Mathlib

/-!
Shallow embedding of the `health-report-explainer-ai` repository
(`src/interpreter.py`, `src/chatbot.py`, `src/data_pipeline.py`).

Python values that can appear in a report row (a `pandas.Series` used as a
string-keyed record) are modelled by `Value`: a number (Python int/float,
modelled exactly as `ℚ`), a string, or `Value.none` (Python `None` stored in
the row).  A row is an insertion-ordered association list, mirroring a Python
dict / Series.  Python code that can raise (`float(...)`, `int(...)`,
comparisons between strings and numbers) is modelled with `Option`:
`none` is an uncaught exception.
-/

/-- A Python value stored in a report row. -/
inductive Value where
  | none : Value
  | num : ℚ → Value
  | str : String → Value
deriving DecidableEq, Repr

/-- A report row: insertion-ordered association list, like a Python dict /
`pandas.Series` built from one. -/
abbrev Row := List (String × Value)

/-- First binding of a key in an association list (Python dict lookup). -/
def lookupKey (k : String) : List (String × Value) → Option Value
  | [] => Option.none
  | (k', v) :: t => if k' = k then Option.some v else lookupKey k t

/-- Python `row.get(key, default)`. -/
def rowGetD (row : Row) (k : String) (d : Value) : Value :=
  (lookupKey k row).getD d

/-- Python `row.get(key)` — default `None`. -/
def rowGet0 (row : Row) (k : String) : Value :=
  (lookupKey k row).getD Value.none

/-- ASCII whitespace recognized by Python's `\s` / `str.strip` (we restrict
the model to ASCII text). -/
def isWs (c : Char) : Bool :=
  c = ' ' || c = '\t' || c = '\n' || c = '\r' || c = '\x0b' || c = '\x0c'

def isDigitC (c : Char) : Bool := c.isDigit

def digitVal (c : Char) : ℕ := c.toNat - '0'.toNat

/-- Numeric value of a digit string. -/
def natOfDigits (cs : List Char) : ℕ :=
  cs.foldl (fun a c => 10 * a + digitVal c) 0

/-- `10 ^ e` over `ℚ` for an integer exponent. -/
def qpow10 (e : ℤ) : ℚ :=
  if 0 ≤ e then (10 : ℚ) ^ e.toNat else 1 / (10 : ℚ) ^ (-e).toNat

/-- Python `float(s)` on a string, as far as finite decimal literals go:
optional surrounding whitespace, optional sign, `d+ | d+.d* | .d+ | d+.`,
optional exponent.  (Python also accepts `inf`/`nan` and underscores in
digits; those forms are treated as failures here, a restriction that does
not affect any row the program builds.) -/
def pyParseFloat (s : String) : Option ℚ :=
  let cs := ((s.toList.dropWhile isWs).reverse.dropWhile isWs).reverse
  let signed : ℚ × List Char :=
    match cs with
    | '+' :: t => (1, t)
    | '-' :: t => (-1, t)
    | t => (1, t)
  let sign := signed.1
  let cs1 := signed.2
  let ip := cs1.takeWhile isDigitC
  let r1 := cs1.dropWhile isDigitC
  let mant : Option (ℚ × List Char) :=
    match r1 with
    | '.' :: t =>
        let fp := t.takeWhile isDigitC
        if ip.isEmpty && fp.isEmpty then Option.none
        else Option.some
          ((natOfDigits ip : ℚ) + (natOfDigits fp : ℚ) / (10 : ℚ) ^ fp.length,
            t.dropWhile isDigitC)
    | _ =>
        if ip.isEmpty then Option.none
        else Option.some ((natOfDigits ip : ℚ), r1)
  match mant with
  | Option.none => Option.none
  | Option.some (m, r2) =>
    match r2 with
    | [] => Option.some (sign * m)
    | e :: t =>
      if e = 'e' || e = 'E' then
        let esigned : ℤ × List Char :=
          match t with
          | '+' :: u => (1, u)
          | '-' :: u => (-1, u)
          | u => (1, u)
        let ed := esigned.2.takeWhile isDigitC
        let rest := esigned.2.dropWhile isDigitC
        if ed.isEmpty || !rest.isEmpty then Option.none
        else Option.some (sign * m * qpow10 (esigned.1 * (natOfDigits ed : ℤ)))
      else Option.none

/-- Python `int(s)` on a string: optional whitespace, optional sign, digits. -/
def pyParseInt (s : String) : Option ℤ :=
  let cs := ((s.toList.dropWhile isWs).reverse.dropWhile isWs).reverse
  let signed : ℤ × List Char :=
    match cs with
    | '+' :: t => (1, t)
    | '-' :: t => (-1, t)
    | t => (1, t)
  let ds := signed.2
  if ds.isEmpty || !(ds.all isDigitC) then Option.none
  else Option.some (signed.1 * (natOfDigits ds : ℤ))

/-- Truncation toward zero, Python `int()` applied to a float. -/
def ratTrunc (q : ℚ) : ℤ :=
  if q < 0 then -⌊-q⌋ else ⌊q⌋

/-- Python `float(value)`; `None` raises `TypeError`, a non-numeric string
raises `ValueError` — both are `Option.none`. -/
def pyFloat : Value → Option ℚ
  | Value.none => Option.none
  | Value.num q => Option.some q
  | Value.str s => pyParseFloat s

/-- Python `int(value)`. -/
def pyInt : Value → Option ℤ
  | Value.none => Option.none
  | Value.num q => Option.some (ratTrunc q)
  | Value.str s => pyParseInt s

/-- Python `value < c` against a number: raises `TypeError` unless the value
is itself a number. -/
def pyLtNum (v : Value) (c : ℚ) : Option Bool :=
  match v with
  | Value.num q => Option.some (decide (q < c))
  | _ => Option.none

/-- Python `value > c` against a number. -/
def pyGtNum (v : Value) (c : ℚ) : Option Bool :=
  match v with
  | Value.num q => Option.some (decide (c < q))
  | _ => Option.none

def strLower (s : String) : String := String.mk (s.toList.map Char.toLower)

def strUpper (s : String) : String := String.mk (s.toList.map Char.toUpper)

/-- Python `str.capitalize`. -/
def pyCapitalize (s : String) : String :=
  match s.toList with
  | [] => ""
  | c :: t => String.mk (Char.toUpper c :: t.map Char.toLower)

/-- Python `str(value)`.  The exact CPython rendering of a float is
irrelevant to the program (it is only ever compared with `"female"`), so a
numeric value renders via `ℚ`'s `toString` (digits, `-`, `/` only). -/
def pyStr : Value → String
  | Value.none => "None"
  | Value.num q => toString q
  | Value.str s => s

/-!  ## `src/interpreter.py`  -/

/-- The three flags returned by `rule_based_flags` (a Python dict with keys
`anemia`, `infection`, `cardio`). -/
structure Flags where
  anemia : Bool
  infection : Bool
  cardio : Bool
deriving DecidableEq, Repr

/-- The `Insight` dataclass.  The float risk fields are exact decimal
constants, so `ℚ` represents them faithfully. -/
structure Insight where
  anemia_risk : ℚ
  cardio_risk : ℚ
  infection_risk : ℚ
  severity_score : ℤ
  narrative : String
  diet_tips : List String
deriving DecidableEq, Repr

/-- `str(row.get("Gender", "")).lower() == "female"` in `rule_based_flags`. -/
def isFemale (row : Row) : Bool :=
  strLower (pyStr (rowGetD row "Gender" (Value.str ""))) = "female"

/-- `rule_based_flags`, with Python's `and`/`or` short-circuiting made
explicit: `(female and hb < 12) or (not female and hb < 13)` evaluates
exactly one hemoglobin comparison, and the cardio `or` chain stops at the
first true comparison.  A comparison between a non-number and a number
raises `TypeError` (`Option.none`). -/
def rule_based_flags (row : Row) : Option Flags :=
  let female := isFemale row
  (if female then pyLtNum (rowGetD row "Hemoglobin" (Value.num 99)) 12
   else pyLtNum (rowGetD row "Hemoglobin" (Value.num 99)) 13).bind fun anemia =>
  (pyGtNum (rowGetD row "WBC" (Value.num 0)) 11).bind fun infection =>
  ((pyGtNum (rowGetD row "LDL" (Value.num 0)) 130).bind fun b1 =>
    if b1 then Option.some true
    else (pyGtNum (rowGetD row "Triglycerides" (Value.num 0)) 150).bind fun b2 =>
      if b2 then Option.some true
      else pyGtNum (rowGetD row "Cholesterol" (Value.num 0)) 200).map fun cardio =>
  ⟨anemia, infection, cardio⟩

/-- `np.clip(x, lo, hi)`. -/
def npClip (x lo hi : ℚ) : ℚ := min (max x lo) hi

/-- `severity_score`: each `float(row.get(...))` can raise on a stored
non-numeric value, hence `Option`.  `int(np.clip(score, 0, 100))` truncates
toward zero. -/
def severity_score (row : Row) : Option ℤ :=
  (pyFloat (rowGetD row "Hemoglobin" (Value.num 12))).bind fun h =>
  (pyFloat (rowGetD row "LDL" (Value.num 100))).bind fun l =>
  (pyFloat (rowGetD row "Triglycerides" (Value.num 120))).bind fun t =>
  (pyFloat (rowGetD row "WBC" (Value.num 7))).bind fun w =>
  (pyInt (rowGetD row "Age" (Value.num 30))).map fun a =>
  ratTrunc (npClip
    (max 0 (12 - h) * 8 + max 0 (l - 100) * 0.2 + max 0 (t - 120) * 0.15 +
      max 0 (w - 10) * 4 + (if 50 < a then 7 else 0)) 0 100)

def lifestyle_suggestions (flags : Flags) : List String :=
  let tips : List String :=
    (if flags.anemia then
      ["Add iron-rich foods (spinach, lentils, dates) and vitamin C sources."]
     else []) ++
    (if flags.cardio then
      ["Reduce fried foods, increase fiber, and aim for 150 min/week exercise."]
     else []) ++
    (if flags.infection then
      ["Hydrate well, prioritize sleep, and consult a clinician if fever persists."]
     else [])
  if tips.isEmpty then
    ["Maintain balanced diet, regular movement, and annual preventive checkups."]
  else tips

/-- `age_band`: Python `//` is floor division. -/
def age_band (age : ℤ) : String :=
  let lo := age.fdiv 10 * 10
  toString lo ++ "-" ++ toString (lo + 9)

/-- `build_narrative`.  `int(row.get('Age', 30))` is evaluated only inside
the cardio branch and can raise there. -/
def build_narrative (row : Row) (flags : Flags) (score : ℤ) : Option String :=
  let p1 : String :=
    if flags.anemia then
      "Your hemoglobin is below the expected range and may indicate mild anemia."
    else "Your hemoglobin appears within expected range."
  (if flags.cardio then
    (pyInt (rowGetD row "Age" (Value.num 30))).map fun a =>
      ["Your lipid values are borderline high for age group " ++ age_band a ++ "."]
   else Option.some []).map fun p2 =>
  let p3 : List String :=
    if flags.infection then
      ["Your WBC is elevated, which can appear in infection or inflammation."]
    else []
  String.intercalate " "
    ([p1] ++ p2 ++ p3 ++ ["Current overall severity score: " ++ toString score ++ "/100."])

/-!  ## `src/chatbot.py`  -/

/-- Substring test on char lists (Python `needle in hay`). -/
def listContainsSub (ns : List Char) : List Char → Bool
  | [] => ns.isEmpty
  | c :: t => ns.isPrefixOf (c :: t) || listContainsSub ns t

/-- Python `needle in hay` on strings. -/
def strContains (hay needle : String) : Bool :=
  listContainsSub needle.toList hay.toList

/-- `_safe_float`: `float(value)` with `TypeError`/`ValueError` caught,
returning `None` — exactly `pyFloat`. -/
def safe_float (v : Value) : Option ℚ := pyFloat v

/-- Round half to even, for nonnegative `q` (Python's `format` rounding). -/
def rqHalfEven (q : ℚ) : ℤ :=
  let n := ratTrunc q
  let r := q - n
  if r < 1 / 2 then n
  else if 1 / 2 < r then n + 1
  else if n % 2 = 0 then n else n + 1

/-- Python `f"{q:.1f}"` (on the exact rational the model carries). -/
def fmt1 (q : ℚ) : String :=
  let body := fun (x : ℚ) =>
    let m := (rqHalfEven (10 * x)).toNat
    toString (m / 10) ++ "." ++ toString (m % 10)
  if q < 0 then "-" ++ body (-q) else body q

/-- Python `f"{q:.0f}"`. -/
def fmt0 (q : ℚ) : String :=
  if q < 0 then "-" ++ toString (rqHalfEven (-q)).toNat
  else toString (rqHalfEven q).toNat

def wbcMissingMsg : String :=
  "I couldn\x27t read your WBC value from the latest report."

def hemoMissingMsg : String :=
  "I couldn\x27t read your hemoglobin value from the latest report."

def cholMissingMsg : String :=
  "I couldn\x27t read LDL/cholesterol from the latest report."

def fallbackMsg : String :=
  "I can explain WBC, hemoglobin/anemia, and cholesterol/LDL questions based on your report."

/-- The `"wbc" in q` branch of `answer_question`. -/
def wbcReply (row : Row) : String :=
  match safe_float (rowGet0 row "WBC") with
  | Option.none => wbcMissingMsg
  | Option.some wbc =>
    if 11 < wbc then
      "Your WBC is " ++ fmt1 wbc ++
        ", which is higher than typical range and can indicate infection/inflammation."
    else
      "Your WBC is " ++ fmt1 wbc ++ ", which is generally in expected range."

/-- The `"hemoglobin" in q or "anemia" in q` branch. -/
def hemoReply (row : Row) : String :=
  match safe_float (rowGet0 row "Hemoglobin") with
  | Option.none => hemoMissingMsg
  | Option.some h =>
    "Your hemoglobin is " ++ fmt1 h ++
      ". Low values may relate to anemia, especially with fatigue symptoms."

/-- The `"cholesterol" in q or "ldl" in q` branch. -/
def cholReply (row : Row) : String :=
  match safe_float (rowGet0 row "LDL"), safe_float (rowGet0 row "Cholesterol") with
  | Option.some l, Option.some c =>
    "Your LDL is " ++ fmt0 l ++ " and total cholesterol is " ++ fmt0 c ++
      "; improving diet and exercise can lower risk."
  | _, _ => cholMissingMsg

/-- `answer_question`. -/
def answer_question (question : String) (row : Row) : String :=
  let q := strLower question
  if strContains q "wbc" then wbcReply row
  else if strContains q "hemoglobin" || strContains q "anemia" then hemoReply row
  else if strContains q "cholesterol" || strContains q "ldl" then cholReply row
  else fallbackMsg

/-- `interpret_row`. -/
def interpret_row (row : Row) : Option Insight :=
  (rule_based_flags row).bind fun flags =>
  (severity_score row).bind fun score =>
  (build_narrative row flags score).map fun narrative =>
  { anemia_risk := if flags.anemia then 0.75 else 0.15
    cardio_risk := if flags.cardio then 0.72 else 0.2
    infection_risk := if flags.infection then 0.7 else 0.18
    severity_score := score
    narrative := narrative
    diet_tips := lifestyle_suggestions flags }

/-!  ## `src/data_pipeline.py` — the regex field extractor

Each entry of `REPORT_PATTERN` is a regex of the shape

  PRE1 OPT? PRE2 \s* [:\-]? \s* (CAPTURE)

(`patient[_\s-]?id`, `platelets?`, `triglycerides?` use the optional part;
the others have a bare literal prefix).  `Pat` transcribes that shape as
data, and `matchAt` gives it Python's leftmost, greedy, backtracking
semantics: the optional part and the `[:\-]?` separator are consumed
greedily, with a fall-back to not consuming them when the remainder of the
pattern fails.  `reSearch` is `re.search`: the first start position (left to
right) at which `matchAt` succeeds, returning group 1.
-/

/-- Capture group shape of one pattern. -/
inductive CapKind where
  | num : CapKind      -- ([0-9]+\.?[0-9]*)
  | int : CapKind      -- ([0-9]+)
  | gender : CapKind   -- (male|female|other)
  | pid : CapKind      -- ([a-z0-9\-_]+)
deriving DecidableEq, Repr

/-- Optional one-character part between the two literal prefixes. -/
inductive OptPart where
  | nothing : OptPart
  | litChar : Char → OptPart   -- e.g. the optional trailing s of platelets?
  | idSep : OptPart            -- [_\s-] in patient[_\s-]?id
deriving DecidableEq, Repr

/-- One regex of the `REPORT_PATTERN` table. -/
structure Pat where
  pre1 : String
  opt : OptPart
  pre2 : String
  cap : CapKind
deriving DecidableEq, Repr

/-- Character class `[a-z0-9\-_]` (the text is already lowercased). -/
def isPidChar (c : Char) : Bool :=
  ('a'.toNat ≤ c.toNat && c.toNat ≤ 'z'.toNat) || isDigitC c || c = '-' || c = '_'

/-- Capture `([0-9]+\.?[0-9]*)`, greedy. -/
def capNum (cs : List Char) : Option String :=
  let ip := cs.takeWhile isDigitC
  if ip.isEmpty then Option.none
  else
    match cs.dropWhile isDigitC with
    | '.' :: t => Option.some (String.mk (ip ++ '.' :: t.takeWhile isDigitC))
    | _ => Option.some (String.mk ip)

/-- Capture `([0-9]+)`, greedy. -/
def capInt (cs : List Char) : Option String :=
  let ip := cs.takeWhile isDigitC
  if ip.isEmpty then Option.none else Option.some (String.mk ip)

/-- Capture `(male|female|other)`: alternatives tried in this order. -/
def capGender (cs : List Char) : Option String :=
  if "male".toList.isPrefixOf cs then Option.some "male"
  else if "female".toList.isPrefixOf cs then Option.some "female"
  else if "other".toList.isPrefixOf cs then Option.some "other"
  else Option.none

/-- Capture `([a-z0-9\-_]+)`, greedy. -/
def capPid (cs : List Char) : Option String :=
  let run := cs.takeWhile isPidChar
  if run.isEmpty then Option.none else Option.some (String.mk run)

def capFn : CapKind → List Char → Option String
  | CapKind.num => capNum
  | CapKind.int => capInt
  | CapKind.gender => capGender
  | CapKind.pid => capPid

/-- `\s*[:\-]?\s*` followed by the capture, in Python's backtracking order:
maximal whitespace, separator consumed if present, maximal whitespace,
capture; on failure the separator is retried unconsumed (whitespace runs
need no shorter retries because no capture class contains whitespace). -/
def sepCap (cap : List Char → Option String) (cs : List Char) : Option String :=
  let r := cs.dropWhile isWs
  match r with
  | [] => cap []
  | c :: t =>
    if c = ':' || c = '-' then
      match cap (t.dropWhile isWs) with
      | Option.some s => Option.some s
      | Option.none => cap r
    else cap r

/-- Literal prefix: consume it or fail. -/
def stripPre (pre : List Char) (cs : List Char) : Option (List Char) :=
  if pre.isPrefixOf cs then Option.some (cs.drop pre.length) else Option.none

/-- Does `c` match the optional one-character class? -/
def optMatches : OptPart → Char → Bool
  | OptPart.nothing, _ => false
  | OptPart.litChar d, c => c = d
  | OptPart.idSep, c => c = '_' || c = '-' || isWs c

/-- Try the whole pattern anchored at the start of `cs`, group 1 on
success.  The optional part is greedy with fall-back. -/
def matchAt (p : Pat) (cs : List Char) : Option String :=
  match stripPre p.pre1.toList cs with
  | Option.none => Option.none
  | Option.some r1 =>
    let rest := fun (r : List Char) =>
      match stripPre p.pre2.toList r with
      | Option.none => Option.none
      | Option.some r2 => sepCap (capFn p.cap) r2
    match r1 with
    | [] => rest []
    | c :: t =>
      if optMatches p.opt c then
        match rest t with
        | Option.some s => Option.some s
        | Option.none => rest (c :: t)
      else rest (c :: t)

/-- `re.search`: first start position at which the pattern matches. -/
def reSearch (p : Pat) : List Char → Option String
  | [] => matchAt p []
  | c :: t =>
    match matchAt p (c :: t) with
    | Option.some s => Option.some s
    | Option.none => reSearch p t

/-- The `REPORT_PATTERN` dict, in source order. -/
def REPORT_PATTERN : List (String × Pat) :=
  [("Patient_ID", ⟨"patient", OptPart.idSep, "id", CapKind.pid⟩),
   ("Hemoglobin", ⟨"hemoglobin", OptPart.nothing, "", CapKind.num⟩),
   ("WBC", ⟨"wbc", OptPart.nothing, "", CapKind.num⟩),
   ("RBC", ⟨"rbc", OptPart.nothing, "", CapKind.num⟩),
   ("Platelets", ⟨"platelet", OptPart.litChar 's', "", CapKind.num⟩),
   ("Cholesterol", ⟨"cholesterol", OptPart.nothing, "", CapKind.num⟩),
   ("HDL", ⟨"hdl", OptPart.nothing, "", CapKind.num⟩),
   ("LDL", ⟨"ldl", OptPart.nothing, "", CapKind.num⟩),
   ("Triglycerides", ⟨"triglyceride", OptPart.litChar 's', "", CapKind.num⟩),
   ("Age", ⟨"age", OptPart.nothing, "", CapKind.int⟩),
   ("Gender", ⟨"gender", OptPart.nothing, "", CapKind.gender⟩)]

/-- Exact value of a captured numeric group (`float(value)` in the source:
the group always has the shape `d+` or `d+.d*`, on which `float` is exactly
this decimal value). -/
def ratOfCapture (cs : List Char) : ℚ :=
  let ip := cs.takeWhile isDigitC
  match cs.dropWhile isDigitC with
  | '.' :: t =>
    let fp := t.takeWhile isDigitC
    (natOfDigits ip : ℚ) + (natOfDigits fp : ℚ) / (10 : ℚ) ^ fp.length
  | _ => (natOfDigits ip : ℚ)

/-- Per-field conversion of the captured group, from the `if/elif` chain in
`parse_report_text`: Gender capitalized, Age via `int`, Patient_ID
uppercased, everything else via `float`. -/
def convertField (field : String) (s : String) : Value :=
  if field = "Gender" then Value.str (pyCapitalize s)
  else if field = "Age" then Value.num (natOfDigits s.toList : ℚ)
  else if field = "Patient_ID" then Value.str (strUpper s)
  else Value.num (ratOfCapture s.toList)

/-- `text.lower()` as a char list. -/
def normChars (text : String) : List Char :=
  text.toList.map Char.toLower

/-- The extraction loop over a pattern table: matched fields in table
order, unmatched fields skipped (`continue`). -/
def mkMatched (pats : List (String × Pat)) (t : List Char) : List (String × Value) :=
  pats.filterMap fun e => (reSearch e.2 t).map fun s => (e.1, convertField e.1 s)

/-- The extraction loop of `parse_report_text` over `REPORT_PATTERN`. -/
def matchedPairs (t : List Char) : List (String × Value) :=
  mkMatched REPORT_PATTERN t

/-- `extracted.setdefault(k, v)`: appends at the end of the dict when the
key is absent.  The keys checked (`Gender`, `Age`, `Patient_ID`) can only
occur among the matched pairs, never as `Test_Date`/`Symptoms`, so the check
looks at the matched pairs. -/
def defaultPair (m : List (String × Value)) (k : String) (v : Value) :
    List (String × Value) :=
  if (lookupKey k m).isSome then [] else [(k, v)]

/-- The single extracted row of `parse_report_text`.  `datetime.now()` is an
input: `today` is the current date's ISO string. -/
def parseRow (text : String) (today : String) : Row :=
  let matched := matchedPairs (normChars text)
  ("Test_Date", Value.str today) :: ("Symptoms", Value.str "") ::
    (matched ++
      (defaultPair matched "Gender" (Value.str "Female") ++
       defaultPair matched "Age" (Value.num 30) ++
       defaultPair matched "Patient_ID" (Value.str "P-UNKNOWN")))

/-- `parse_report_text`: a one-row DataFrame, modelled as a one-row list. -/
def parse_report_text (text : String) (today : String) : List Row :=
  [parseRow text today]

/-!  ## `src/data_pipeline.py` — encrypted storage

`encrypt_payload`/`decrypt_payload` delegate the cipher itself to the
external `cryptography.fernet` library; the repository's own contribution is
the key handling (`_load_or_create_key`: read the key file if it exists,
otherwise generate a fresh key and persist it).  The cipher is therefore a
parameter (`enc`, `dec`), the key-file state is an `Option Bytes`, and
`Fernet.generate_key()` is an input (`fresh`). -/

abbrev Bytes := List ℕ

/-- `_load_or_create_key`: returns the key and the key file's new state. -/
def load_or_create_key (stored : Option Bytes) (fresh : Bytes) :
    Bytes × Option Bytes :=
  match stored with
  | Option.some k => (k, Option.some k)
  | Option.none => (fresh, Option.some fresh)

/-- `encrypt_payload`: ciphertext plus the key file's state after the call. -/
def encrypt_payload (enc : Bytes → Bytes → Bytes) (stored : Option Bytes)
    (fresh : Bytes) (payload : Bytes) : Bytes × Option Bytes :=
  let r := load_or_create_key stored fresh
  (enc r.1 payload, r.2)

/-- `decrypt_payload`. -/
def decrypt_payload (dec : Bytes → Bytes → Bytes) (stored : Option Bytes)
    (fresh : Bytes) (payload : Bytes) : Bytes :=
  dec (load_or_create_key stored fresh).1 payload

/-!  ## General lemmas about the extraction dictionary  -/

/-- Row with every binding of `k` removed (used to compare parses that
differ only in the date). -/
def eraseKey (k : String) (r : Row) : Row :=
  r.filter fun p => !(p.1 == k)

theorem lookupKey_append_of_none {k : String} {l1 : List (String × Value)}
    (h : lookupKey k l1 = Option.none) (l2 : List (String × Value)) :
    lookupKey k (l1 ++ l2) = lookupKey k l2 := by
  induction l1 with
  | nil => rfl
  | cons a t ih =>
    obtain ⟨k', v⟩ := a
    by_cases hk : k' = k
    · simp [lookupKey, hk] at h
    · simp only [lookupKey, hk, if_false, List.cons_append] at h ⊢
      exact ih h

theorem mkMatched_cons (g : String) (q : Pat) (pats : List (String × Pat))
    (t : List Char) :
    mkMatched ((g, q) :: pats) t =
      (match reSearch q t with
       | Option.none => mkMatched pats t
       | Option.some s => (g, convertField g s) :: mkMatched pats t) := by
  simp only [mkMatched, List.filterMap_cons]
  cases reSearch q t <;> rfl

theorem lookup_mkMatched_of_not_mem {f : String} {pats : List (String × Pat)}
    (h : f ∉ pats.map Prod.fst) (t : List Char) :
    lookupKey f (mkMatched pats t) = Option.none := by
  induction pats with
  | nil => rfl
  | cons e rest ih =>
    obtain ⟨g, p⟩ := e
    simp only [List.map_cons, List.mem_cons, not_or] at h
    obtain ⟨hg, hrest⟩ := h
    rw [mkMatched_cons]
    cases hs : reSearch p t with
    | none => exact ih hrest
    | some s =>
      have hgf : g ≠ f := fun hh => hg hh.symm
      simpa [lookupKey, hgf] using ih hrest

theorem lookup_mkMatched {f : String} {p : Pat} {pats : List (String × Pat)}
    (hn : (pats.map Prod.fst).Nodup) (hm : (f, p) ∈ pats) (t : List Char) :
    lookupKey f (mkMatched pats t) =
      Option.map (convertField f) (reSearch p t) := by
  induction pats with
  | nil => cases hm
  | cons e rest ih =>
    obtain ⟨g, q⟩ := e
    simp only [List.map_cons, List.nodup_cons] at hn
    obtain ⟨hg, hrest⟩ := hn
    rcases List.mem_cons.mp hm with heq | hmem
    · cases heq
      rw [mkMatched_cons]
      cases hs : reSearch p t with
      | none =>
        simpa using lookup_mkMatched_of_not_mem hg t
      | some s => simp [lookupKey]
    · have hgf : g ≠ f := by
        intro hgf
        exact hg (hgf ▸ List.mem_map_of_mem Prod.fst hmem)
      rw [mkMatched_cons]
      cases hs : reSearch q t with
      | none => exact ih hrest hmem
      | some s =>
        simpa [lookupKey, hgf] using ih hrest hmem

/-!  ## Claims  -/

/-- The claim's reading of the severity score (stated from the spec's words,
for comparison): ONLY the four weighted threshold excesses, clipped to
[0, 100] — no age adjustment. -/
def severityWeightedSumOnly (row : Row) : Option ℤ :=
  (pyFloat (rowGetD row "Hemoglobin" (Value.num 12))).bind fun h =>
  (pyFloat (rowGetD row "LDL" (Value.num 100))).bind fun l =>
  (pyFloat (rowGetD row "Triglycerides" (Value.num 120))).bind fun t =>
  (pyFloat (rowGetD row "WBC" (Value.num 7))).map fun w =>
  ratTrunc (npClip
    (max 0 (12 - h) * 8 + max 0 (l - 100) * 0.2 + max 0 (t - 120) * 0.15 +
      max 0 (w - 10) * 4) 0 100)

/-- C1, counterexample: on a row whose only entry is Age = 60, the code
returns 7 (a flat +7 for Age > 50) while a pure weighted sum of the four
threshold excesses, clipped, is 0. -/
theorem c1_counterexample :
    severity_score [("Age", Value.num 60)] = Option.some 7 ∧
      severityWeightedSumOnly [("Age", Value.num 60)] = Option.some 0 := by
  constructor
  · have h1 : pyFloat (rowGetD [("Age", Value.num 60)] "Hemoglobin" (Value.num 12)) =
        Option.some 12 := by decide
    have h2 : pyFloat (rowGetD [("Age", Value.num 60)] "LDL" (Value.num 100)) =
        Option.some 100 := by decide
    have h3 : pyFloat (rowGetD [("Age", Value.num 60)] "Triglycerides" (Value.num 120)) =
        Option.some 120 := by decide
    have h4 : pyFloat (rowGetD [("Age", Value.num 60)] "WBC" (Value.num 7)) =
        Option.some 7 := by decide
    have h5 : pyInt (rowGetD [("Age", Value.num 60)] "Age" (Value.num 30)) =
        Option.some 60 := by decide
    unfold severity_score
    rw [h1, h2, h3, h4, h5]
    show Option.some (ratTrunc (npClip
      (max 0 (12 - 12) * 8 + max 0 (100 - 100) * 0.2 + max 0 (120 - 120) * 0.15 +
        max 0 (7 - 10) * 4 + (if (50 : ℤ) < 60 then 7 else 0)) 0 100)) = Option.some 7
    refine congrArg Option.some ?_
    norm_num [npClip, ratTrunc]
  · have h1 : pyFloat (rowGetD [("Age", Value.num 60)] "Hemoglobin" (Value.num 12)) =
        Option.some 12 := by decide
    have h2 : pyFloat (rowGetD [("Age", Value.num 60)] "LDL" (Value.num 100)) =
        Option.some 100 := by decide
    have h3 : pyFloat (rowGetD [("Age", Value.num 60)] "Triglycerides" (Value.num 120)) =
        Option.some 120 := by decide
    have h4 : pyFloat (rowGetD [("Age", Value.num 60)] "WBC" (Value.num 7)) =
        Option.some 7 := by decide
    unfold severityWeightedSumOnly
    rw [h1, h2, h3, h4]
    show Option.some (ratTrunc (npClip
      (max 0 (12 - 12) * 8 + max 0 (100 - 100) * 0.2 + max 0 (120 - 120) * 0.15 +
        max 0 (7 - 10) * 4) 0 100)) = Option.some 0
    refine congrArg Option.some ?_
    norm_num [npClip, ratTrunc]

/-- C1 (amended): the severity score is the weighted sum of the four
threshold excesses (hemoglobin below 12 weighted 8, LDL above 100 weighted
0.2, triglycerides above 120 weighted 0.15, WBC above 10 weighted 4) PLUS a
flat 7 when Age exceeds 50, clipped to [0, 100] and truncated to an
integer. -/
theorem c1_severity_formula (row : Row) (h l t w : ℚ) (a : ℤ)
    (hh : pyFloat (rowGetD row "Hemoglobin" (Value.num 12)) = Option.some h)
    (hl : pyFloat (rowGetD row "LDL" (Value.num 100)) = Option.some l)
    (ht : pyFloat (rowGetD row "Triglycerides" (Value.num 120)) = Option.some t)
    (hw : pyFloat (rowGetD row "WBC" (Value.num 7)) = Option.some w)
    (ha : pyInt (rowGetD row "Age" (Value.num 30)) = Option.some a) :
    severity_score row = Option.some (ratTrunc (npClip
      (max 0 (12 - h) * 8 + max 0 (l - 100) * 0.2 + max 0 (t - 120) * 0.15 +
        max 0 (w - 10) * 4 + (if 50 < a then 7 else 0)) 0 100)) := by
  unfold severity_score
  rw [hh, hl, ht, hw, ha]
  rfl

/-- C1 witness: the formula theorem applied at a concrete row
(hemoglobin 10, age 60, everything else defaulted) gives 16 + 7 = 23. -/
theorem c1_witness :
    severity_score [("Hemoglobin", Value.num 10), ("Age", Value.num 60)] =
      Option.some 23 :=
  (c1_severity_formula [("Hemoglobin", Value.num 10), ("Age", Value.num 60)]
      10 100 120 7 60 (by decide) (by decide) (by decide) (by decide)
      (by decide)).trans
    (congrArg Option.some (by norm_num [npClip, ratTrunc]))

/-- C2, counterexample: `severity_score` does not return an integer for
every row — on a row storing the string "n/a" under Hemoglobin,
`float(...)` raises `ValueError` (modelled as `Option.none`). -/
theorem c2_counterexample :
    severity_score [("Hemoglobin", Value.str "n/a")] = Option.none := by
  decide

/-- C2 (amended): whenever `severity_score` returns at all — it does for
every row whose relevant fields are missing or numeric, however extreme or
negative, but raises on non-numeric strings — the result lies in [0, 100]. -/
theorem c2_range (row : Row) (n : ℤ) (h : severity_score row = Option.some n) :
    0 ≤ n ∧ n ≤ 100 := by
  unfold severity_score at h
  cases hh : pyFloat (rowGetD row "Hemoglobin" (Value.num 12)) with
  | none => rw [hh] at h; cases h
  | some hv =>
  cases hl : pyFloat (rowGetD row "LDL" (Value.num 100)) with
  | none => rw [hh, hl] at h; cases h
  | some lv =>
  cases ht : pyFloat (rowGetD row "Triglycerides" (Value.num 120)) with
  | none => rw [hh, hl, ht] at h; cases h
  | some tv =>
  cases hw : pyFloat (rowGetD row "WBC" (Value.num 7)) with
  | none => rw [hh, hl, ht, hw] at h; cases h
  | some wv =>
  cases ha : pyInt (rowGetD row "Age" (Value.num 30)) with
  | none => rw [hh, hl, ht, hw, ha] at h; cases h
  | some av =>
  rw [hh, hl, ht, hw, ha] at h
  set s : ℚ := max 0 (12 - hv) * 8 + max 0 (lv - 100) * 0.2 +
    max 0 (tv - 120) * 0.15 + max 0 (wv - 10) * 4 +
    (if 50 < av then 7 else 0) with hs
  have hn : ratTrunc (npClip s 0 100) = n := Option.some.inj h
  subst hn
  have hc0 : (0 : ℚ) ≤ npClip s 0 100 := le_min (le_max_right s 0) (by norm_num)
  have hc100 : npClip s 0 100 ≤ 100 := min_le_right _ _
  rw [ratTrunc, if_neg (not_lt.mpr hc0)]
  constructor
  · exact Int.le_floor.mpr (by exact_mod_cast hc0)
  · calc ⌊npClip s 0 100⌋ ≤ ⌊(100 : ℚ)⌋ := Int.floor_le_floor hc100
      _ = 100 := by norm_num

/-- C2 witness: the empty row (every field defaulted) scores 0, inside the
range. -/
theorem c2_witness :
    severity_score ([] : Row) = Option.some 0 ∧ (0 : ℤ) ≤ 0 ∧ (0 : ℤ) ≤ 100 := by
  have h : severity_score ([] : Row) = Option.some 0 := by
    unfold severity_score
    show Option.some (ratTrunc (npClip
      (max 0 (12 - 12) * 8 + max 0 (100 - 100) * 0.2 + max 0 (120 - 120) * 0.15 +
        max 0 (7 - 10) * 4 + (if (50 : ℤ) < ratTrunc 30 then 7 else 0)) 0 100)) =
      Option.some 0
    refine congrArg Option.some ?_
    have h30 : ratTrunc (30 : ℚ) = 30 := by norm_num [ratTrunc]
    rw [h30]
    norm_num [npClip, ratTrunc]
  exact ⟨h, c2_range ([] : Row) 0 h⟩

/-- C3: each flag of `rule_based_flags` is exactly a fixed-threshold
comparison — anemia: hemoglobin (default 99) below 12 for a female row and
below 13 otherwise; infection: WBC (default 0) above 11; cardio: LDL above
130, or triglycerides above 150, or cholesterol above 200 (defaults 0). -/
theorem c3_flags_are_threshold_comparisons (row : Row) (hb wbc ldl trig chol : ℚ)
    (hhb : rowGetD row "Hemoglobin" (Value.num 99) = Value.num hb)
    (hwbc : rowGetD row "WBC" (Value.num 0) = Value.num wbc)
    (hldl : rowGetD row "LDL" (Value.num 0) = Value.num ldl)
    (htrig : rowGetD row "Triglycerides" (Value.num 0) = Value.num trig)
    (hchol : rowGetD row "Cholesterol" (Value.num 0) = Value.num chol) :
    rule_based_flags row = Option.some
      ⟨decide (hb < if isFemale row then 12 else 13),
       decide (11 < wbc),
       decide (130 < ldl ∨ 150 < trig ∨ 200 < chol)⟩ := by
  unfold rule_based_flags
  rw [hhb, hwbc, hldl, htrig, hchol]
  cases hf : isFemale row <;>
    simp only [Bool.false_eq_true, if_false, if_true, pyLtNum, pyGtNum] <;>
    by_cases h1 : (130 : ℚ) < ldl <;> by_cases h2 : (150 : ℚ) < trig <;>
    by_cases h3 : (200 : ℚ) < chol <;>
    simp [h1, h2, h3]

/-- C3 witness: a female row with hemoglobin 10, WBC 12 and LDL 140 trips
all three flags. -/
theorem c3_witness :
    rule_based_flags
      [("Gender", Value.str "female"), ("Hemoglobin", Value.num 10),
       ("WBC", Value.num 12), ("LDL", Value.num 140)] =
      Option.some ⟨true, true, true⟩ :=
  (c3_flags_are_threshold_comparisons
      [("Gender", Value.str "female"), ("Hemoglobin", Value.num 10),
       ("WBC", Value.num 12), ("LDL", Value.num 140)]
      10 12 140 0 0 (by decide) (by decide) (by decide) (by decide)
      (by decide)).trans (by decide)

/-- C6: the rule engine is deterministic — `interpret_row` is a pure
function of the row, so equal rows yield equal `Insight`s (same risks,
severity, narrative and diet tips). -/
theorem c6_interpret_row_deterministic (r1 r2 : Row) (h : r1 = r2) :
    interpret_row r1 = interpret_row r2 := by
  rw [h]

/-- C6 witness. -/
theorem c6_witness :
    interpret_row [("Hemoglobin", Value.num 10), ("Age", Value.num 40)] =
      interpret_row [("Hemoglobin", Value.num 10), ("Age", Value.num 40)] :=
  c6_interpret_row_deterministic _ _ rfl

/-- C8: stored reports are recoverable.  The cipher pair is the external
Fernet library, taken as a parameter satisfying its round-trip contract
`dec k (enc k p) = p`; the repository's key handling loads the same key for
both calls whenever the key file is left untouched between them (including
the case where `encrypt_payload` itself created it). -/
theorem c8_encrypt_decrypt_roundtrip (enc dec : Bytes → Bytes → Bytes)
    (hcipher : ∀ k p, dec k (enc k p) = p)
    (stored : Option Bytes) (fresh1 fresh2 payload : Bytes) :
    decrypt_payload dec (encrypt_payload enc stored fresh1 payload).2 fresh2
      (encrypt_payload enc stored fresh1 payload).1 = payload := by
  cases stored <;>
    simp [encrypt_payload, decrypt_payload, load_or_create_key, hcipher]

/-- C8 witness: the identity cipher satisfies the contract; a payload
stored with a fresh key file comes back unchanged. -/
theorem c8_witness :
    decrypt_payload (fun _ p => p)
      (encrypt_payload (fun _ p => p) Option.none [7] [1, 2, 3]).2 [9]
      (encrypt_payload (fun _ p => p) Option.none [7] [1, 2, 3]).1 = [1, 2, 3] :=
  c8_encrypt_decrypt_roundtrip (fun _ p => p) (fun _ p => p)
    (fun _ _ => rfl) Option.none [7] [9] [1, 2, 3]

theorem lookupKey_cons_ne {k' k : String} (h : k' ≠ k) (v : Value)
    (l : List (String × Value)) :
    lookupKey k ((k', v) :: l) = lookupKey k l := by
  simp [lookupKey, h]

/-- C4, counterexample: `parse_report_text` is NOT a function of the text
(and fixed regex table) alone — `Test_Date` comes from the clock
(`datetime.now()`, here the `today` input), so the same text parsed on two
different days yields different frames. -/
theorem c4_counterexample :
    parse_report_text "" "2026-10-11" ≠ parse_report_text "" "2026-10-12" := by
  decide

/-- C4 (amended): the parse is stateless and deterministic up to the clock:
every field except `Test_Date` is a function of the text alone, and
`Test_Date` is exactly the current date. -/
theorem c4_text_determines_all_but_date (text d1 d2 : String) :
    eraseKey "Test_Date" (parseRow text d1) = eraseKey "Test_Date" (parseRow text d2) ∧
      lookupKey "Test_Date" (parseRow text d1) = Option.some (Value.str d1) :=
  ⟨rfl, rfl⟩

/-- The four chat topics of the spec, as lowercase keywords (stated from
the spec's words, for comparison with `answer_question`): WBC;
hemoglobin/anemia; cholesterol/LDL. -/
def topicMatch (ql : String) : Bool :=
  strContains ql "wbc" || strContains ql "hemoglobin" || strContains ql "anemia" ||
    strContains ql "cholesterol" || strContains ql "ldl"

/-- C5: `answer_question` dispatches purely by substring matching of the
lowercased question over the topic keywords, in source order, and a
question containing none of them gets the fixed fallback reply listing
what the chatbot can explain. -/
theorem c5_substring_dispatch (q : String) (row : Row) :
    answer_question q row =
      (if strContains (strLower q) "wbc" then wbcReply row
       else if strContains (strLower q) "hemoglobin" || strContains (strLower q) "anemia" then
         hemoReply row
       else if strContains (strLower q) "cholesterol" || strContains (strLower q) "ldl" then
         cholReply row
       else fallbackMsg) ∧
    (topicMatch (strLower q) = false → answer_question q row = fallbackMsg) := by
  constructor
  · rfl
  · intro h
    simp only [topicMatch, Bool.or_eq_false_iff] at h
    obtain ⟨⟨⟨⟨h1, h2⟩, h3⟩, h4⟩, h5⟩ := h
    simp [answer_question, h1, h2, h3, h4, h5]

/-- C5 witness: a question with no topic keyword gets the fallback. -/
theorem c5_witness :
    answer_question "hello there" [] = fallbackMsg :=
  (c5_substring_dispatch "hello there" []).2 (by decide)

/-- C7: one pass over the one fixed pattern table — for every field of
`REPORT_PATTERN`, the extraction binds the field to the first (leftmost)
match of its pattern in the lowercased text, converted per field (Gender
capitalized, Age as int, Patient_ID uppercased, other fields as float),
and leaves the field out when the pattern has no match
(`Option.map` of `Option.none`). -/
theorem c7_field_extraction (f : String) (p : Pat) (text : String)
    (hmem : (f, p) ∈ REPORT_PATTERN) :
    lookupKey f (matchedPairs (normChars text)) =
      Option.map (convertField f) (reSearch p (normChars text)) :=
  lookup_mkMatched (by decide) hmem (normChars text)

/-- C7 witness, at the WBC field. -/
theorem c7_witness :
    lookupKey "WBC" (matchedPairs (normChars "WBC: 12.1")) =
      Option.map (convertField "WBC")
        (reSearch ⟨"wbc", OptPart.nothing, "", CapKind.num⟩ (normChars "WBC: 12.1")) :=
  c7_field_extraction "WBC" ⟨"wbc", OptPart.nothing, "", CapKind.num⟩ "WBC: 12.1"
    (by decide)

/-- C9: `parse_report_text` always returns exactly one row; that row always
carries `Test_Date` (the current date) and `Symptoms` (empty), and each of
Gender / Age / Patient_ID, when its pattern matched nothing in the text, is
defaulted to "Female" / 30 / "P-UNKNOWN" respectively. -/
theorem c9_single_row_defaults (text d : String) :
    (parse_report_text text d).length = 1 ∧
    lookupKey "Test_Date" (parseRow text d) = Option.some (Value.str d) ∧
    lookupKey "Symptoms" (parseRow text d) = Option.some (Value.str "") ∧
    (lookupKey "Gender" (matchedPairs (normChars text)) = Option.none →
      lookupKey "Gender" (parseRow text d) = Option.some (Value.str "Female")) ∧
    (lookupKey "Age" (matchedPairs (normChars text)) = Option.none →
      lookupKey "Age" (parseRow text d) = Option.some (Value.num 30)) ∧
    (lookupKey "Patient_ID" (matchedPairs (normChars text)) = Option.none →
      lookupKey "Patient_ID" (parseRow text d) = Option.some (Value.str "P-UNKNOWN")) := by
  have hrow : parseRow text d = ("Test_Date", Value.str d) :: ("Symptoms", Value.str "") ::
      (matchedPairs (normChars text) ++
        (defaultPair (matchedPairs (normChars text)) "Gender" (Value.str "Female") ++
         defaultPair (matchedPairs (normChars text)) "Age" (Value.num 30) ++
         defaultPair (matchedPairs (normChars text)) "Patient_ID" (Value.str "P-UNKNOWN"))) :=
    rfl
  refine ⟨rfl, rfl, rfl, ?_, ?_, ?_⟩
  · intro hg
    rw [hrow, lookupKey_cons_ne (by decide), lookupKey_cons_ne (by decide),
      lookupKey_append_of_none hg]
    simp [defaultPair, hg, lookupKey]
  · intro ha
    rw [hrow, lookupKey_cons_ne (by decide), lookupKey_cons_ne (by decide),
      lookupKey_append_of_none ha]
    cases hcg : (lookupKey "Gender" (matchedPairs (normChars text))).isSome <;>
      simp [defaultPair, hcg, ha, lookupKey]
  · intro hp
    rw [hrow, lookupKey_cons_ne (by decide), lookupKey_cons_ne (by decide),
      lookupKey_append_of_none hp]
    cases hcg : (lookupKey "Gender" (matchedPairs (normChars text))).isSome <;>
      cases hca : (lookupKey "Age" (matchedPairs (normChars text))).isSome <;>
      simp [defaultPair, hcg, hca, hp, lookupKey]

/-- C9 witness: a text matching nothing gets all three defaults. -/
theorem c9_witness :
    lookupKey "Gender" (parseRow "x" "2026-01-01") = Option.some (Value.str "Female") ∧
    lookupKey "Age" (parseRow "x" "2026-01-01") = Option.some (Value.num 30) ∧
    lookupKey "Patient_ID" (parseRow "x" "2026-01-01") =
      Option.some (Value.str "P-UNKNOWN") :=
  ⟨(c9_single_row_defaults "x" "2026-01-01").2.2.2.1 (by decide),
   (c9_single_row_defaults "x" "2026-01-01").2.2.2.2.1 (by decide),
   (c9_single_row_defaults "x" "2026-01-01").2.2.2.2.2 (by decide)⟩

/-- C10: for a question routed to a topic, a needed value that is missing
or not convertible to a float (`_safe_float` returns `None`) yields the
topic's fixed could-not-read message rather than an error. -/
theorem c10_unreadable_value_messages (q : String) (row : Row) :
    (strContains (strLower q) "wbc" = true →
      safe_float (rowGet0 row "WBC") = Option.none →
      answer_question q row = wbcMissingMsg) ∧
    (strContains (strLower q) "wbc" = false →
      (strContains (strLower q) "hemoglobin" || strContains (strLower q) "anemia") = true →
      safe_float (rowGet0 row "Hemoglobin") = Option.none →
      answer_question q row = hemoMissingMsg) ∧
    (strContains (strLower q) "wbc" = false →
      (strContains (strLower q) "hemoglobin" || strContains (strLower q) "anemia") = false →
      (strContains (strLower q) "cholesterol" || strContains (strLower q) "ldl") = true →
      (safe_float (rowGet0 row "LDL") = Option.none ∨
        safe_float (rowGet0 row "Cholesterol") = Option.none) →
      answer_question q row = cholMissingMsg) := by
  refine ⟨?_, ?_, ?_⟩
  · intro h1 h2
    simp [answer_question, h1, wbcReply, h2]
  · intro h1 h2 h3
    simp [answer_question, h1, h2, hemoReply, h3]
  · intro h1 h2 h3 h4
    rcases h4 with h4 | h4
    · cases hc : safe_float (rowGet0 row "Cholesterol") <;>
        simp [answer_question, h1, h2, h3, cholReply, h4, hc]
    · cases hl : safe_float (rowGet0 row "LDL") <;>
        simp [answer_question, h1, h2, h3, cholReply, h4, hl]

/-- C10 witness, mirroring the repository's own chatbot test row. -/
theorem c10_witness :
    answer_question "why is my wbc high"
      [("WBC", Value.str "unknown"), ("Hemoglobin", Value.none),
       ("LDL", Value.str "n/a"), ("Cholesterol", Value.str "n/a")] = wbcMissingMsg ∧
    answer_question "do i have anemia"
      [("WBC", Value.str "unknown"), ("Hemoglobin", Value.none),
       ("LDL", Value.str "n/a"), ("Cholesterol", Value.str "n/a")] = hemoMissingMsg ∧
    answer_question "my cholesterol"
      [("WBC", Value.str "unknown"), ("Hemoglobin", Value.none),
       ("LDL", Value.str "n/a"), ("Cholesterol", Value.str "n/a")] = cholMissingMsg :=
  ⟨(c10_unreadable_value_messages "why is my wbc high" _).1 (by decide) (by decide),
   (c10_unreadable_value_messages "do i have anemia" _).2.1 (by decide) (by decide)
     (by decide),
   (c10_unreadable_value_messages "my cholesterol" _).2.2 (by decide) (by decide)
     (by decide) (Or.inl (by decide))⟩
